import Mathlib

/-!
Verification development for the console `RecordView` component
(`modules/atom-ide-ui/pkg/atom-ide-console/lib/ui/RecordView.js`).

The component renders one console record (a log line, a REPL request, or a
REPL response with structured evaluation data), reports its rendered height
to the parent list, and re-renders only when a prop changes by shallow
equality.  The definitions below are a shallow embedding of that file:

* the record data model and the content-selection algorithm of
  `_renderContent` / `_renderNestedValueComponent`;
* the mutation discipline on the shared expansion-state object
  (`expansionStateId[key] = {}` guarded by a JS truthiness test);
* the icon / timestamp computations of `render` and `getIconName`;
* a small state-transition model of the React lifecycle
  (`shouldComponentUpdate` / `componentDidUpdate` / `measureAndNotifyHeight`)
  and of the debounced height callback disposed in `componentWillUnmount`.

JavaScript `null`/`undefined` is modelled with `Option`; a thrown
`nullthrows` error is modelled with `Except`.  Values stored in the opaque,
externally owned expansion-state object are modelled by `JsValue`, which
records exactly what the component's code observes about them: whether the
value is an empty object freshly written by the component, or some other
value together with its JS truthiness.
-/

/-- A JavaScript value stored in the externally owned expansion-state object:
either the fresh empty object `{}` that the component itself writes (which is
truthy in JS), or an arbitrary other value of which only the JS truthiness is
observed by the component. -/
inductive JsValue where
  | emptyObj : JsValue
  | other (truthy : Bool) : JsValue
deriving DecidableEq

/-- The shared expansion-state object, a JS object used as a string-keyed
dictionary: a key is either absent (`none`, i.e. `undefined` in JS) or holds a
value. -/
def ExpansionState : Type := String → Option JsValue

/-- JS truthiness of a property lookup: an absent key (`undefined`) is falsy,
`\x7b\x7d` is truthy, any other value carries its own truthiness. -/
def truthy : Option JsValue → Bool
  | none => false
  | some JsValue.emptyObj => true
  | some (JsValue.other t) => t

/-- The `object.expression` of a structured-data entry: a remote-object handle
with a numeric `reference` (0 is the sentinel for an already-resolved
primitive) and the already-resolved value returned by `getValue()`. -/
structure ObjExpression where
  reference : Int
  value : String
deriving DecidableEq

/-- One entry of `record.data.objects`. -/
structure DataObject where
  description : Option String
  type : Option String
  expression : ObjExpression
deriving DecidableEq

/-- `record.data`: the structured evaluation payload; `type` may be
`"objects"`, in which case `objects` is expected to hold the entries. -/
structure RecordData where
  type : Option String
  objects : Option (List DataObject)
deriving DecidableEq

/-- The immutable console record displayed by the component.  `timestamp` is
milliseconds since the epoch (`none` when absent). -/
structure Record where
  kind : String
  level : Option String
  text : Option String
  format : Option String
  data : Option RecordData
  sourceId : String
  sourceName : Option String
  timestamp : Option Int
  repeatCount : Nat
  incomplete : Bool
deriving DecidableEq

/-- An executor or source-info provider resolved through the parent-supplied
accessors; only its `getProperties` capability is consumed, modelled as an
opaque identifier. -/
structure CapabilityProvider where
  getProperties : Nat
deriving DecidableEq

/-- The simple-value renderer selected by `getComponent`. -/
inductive ComponentKind where
  | textRenderer : ComponentKind
  | simpleValueComponent : ComponentKind
deriving DecidableEq

/-- `getComponent(type)`: the `switch` maps `'text'` to the `TextRenderer`
wrapper and every other (or absent) type, via the shared `default` branch, to
`SimpleValueComponent`. -/
def getComponent (type : Option String) : ComponentKind :=
  if type = some "text" then ComponentKind.textRenderer
  else ComponentKind.simpleValueComponent

/-- The `evaluationResult` object built for one entry of `data.objects`:
`description`, `type: object.type || ''`, `objectId: object.expression`. -/
structure EvaluationResult where
  description : Option String
  type : String
  objectId : ObjExpression
deriving DecidableEq

/-- Which slot of the shared expansion-state object a lazy node receives:
the object itself (single-object branch) or the entry under a child key
(multiple-objects branch). -/
inductive ExpansionRef where
  | root : ExpansionRef
  | child (key : String) : ExpansionRef
deriving DecidableEq

/-- One rendered child node of the multiple-objects branch. -/
inductive ValueNode where
  | simpleValue (type : String) (value : String) : ValueNode
  | lazyNested (evaluationResult : EvaluationResult)
      (fetchChildren : Option Nat) (simpleValueComponent : ComponentKind)
      (shouldCacheChildren : Bool) (expansionSlot : ExpansionRef) : ValueNode
deriving DecidableEq

/-- The output of `_renderNestedValueComponent`. -/
inductive NestedRendered where
  | multipleObjects (children : List ValueNode) : NestedRendered
  | singleObject (evaluationResult : Option RecordData)
      (fetchChildren : Option Nat) (simpleValueComponent : ComponentKind)
      (shouldCacheChildren : Bool) (expansionSlot : ExpansionRef) : NestedRendered
deriving DecidableEq

/-- The output of `_renderContent`:
`preRaw` is the request branch `<pre>\x7brecord.text || ' '\x7d</pre>` (raw text),
`preParsed` is the plain-text branch `<pre>\x7bparseText(text)\x7d</pre>`,
`ansi` is the `<Ansi renderSegment=\x7bAnsiRenderSegment\x7d>` branch, and
`nested` wraps the nested-value branches. -/
inductive RenderedContent where
  | preRaw (text : String) : RenderedContent
  | preParsed (text : String) : RenderedContent
  | ansi (text : String) : RenderedContent
  | nested (value : NestedRendered) : RenderedContent
deriving DecidableEq

/-- A thrown JS error; the only throw site embedded here is `nullthrows`. -/
inductive JsError where
  | nullthrowsError : JsError
deriving DecidableEq

/-- `record.text || ' '`: both an absent and an empty text are falsy in JS and
are replaced by a single space. -/
def textOrSpace : Option String → String
  | none => " "
  | some s => if s = "" then " " else s

/-- The expansion-state key `'child' + index` allocated for entry `index`. -/
def childKey (index : Nat) : String :=
  "child" ++ toString index

/-- The guarded slot initialisation
`if (!expansionStateId[key]) \x7b expansionStateId[key] = \x7b\x7d; \x7d`:
when the current value of the key is falsy (absent or a falsy value) the key
is set to a fresh empty object, otherwise the state is left untouched. -/
def initChildSlot (st : ExpansionState) (key : String) : ExpansionState :=
  if truthy (st key) then st
  else fun k => if k = key then some JsValue.emptyObj else st k

/-- The node pushed onto `children` for entry `index`: a plain
`SimpleValueComponent` when `object.expression.reference === 0` (with
`type: object.type != null ? object.type : 'text'` and
`value: object.expression.getValue()`), otherwise a
`LazyNestedValueComponent` with the built evaluation result, the
`getProperties` fetcher, the type-selected simple renderer, child caching
enabled, and the per-index expansion-state slot. -/
def renderObjectNode (getProperties : Option Nat) (index : Nat)
    (object : DataObject) : ValueNode :=
  if object.expression.reference = 0 then
    ValueNode.simpleValue
      (match object.type with
        | some t => t
        | none => "text")
      object.expression.value
  else
    ValueNode.lazyNested
      { description := object.description
        type := object.type.getD ""
        objectId := object.expression }
      getProperties (getComponent object.type) true
      (ExpansionRef.child (childKey index))

/-- The `for (const [index, object] of ...entries())` loop of the
multiple-objects branch, threading the expansion-state object through the
guarded per-index slot initialisations and collecting the child nodes in
sequence order.  `index` is the index of the first remaining entry. -/
def renderObjects (getProperties : Option Nat) :
    Nat → List DataObject → ExpansionState → List ValueNode × ExpansionState
  | _, [], st => ([], st)
  | index, object :: rest, st =>
    let st1 := initChildSlot st (childKey index)
    let result := renderObjects getProperties (index + 1) rest st1
    (renderObjectNode getProperties index object :: result.1, result.2)

/-- `_renderNestedValueComponent(provider)`: computes
`getProperties = provider == null ? null : provider.getProperties` and
`type = record.data == null ? null : record.data.type`; when
`type === 'objects'` it iterates `nullthrows(record.data?.objects)` (throwing
when the sequence is absent), otherwise it renders a single
`LazyNestedValueComponent` over `record.data` with the whole expansion-state
object.  Returns the rendered value together with the possibly extended
expansion-state object. -/
def renderNestedValueComponent (provider : Option CapabilityProvider)
    (record : Record) (expansionStateId : ExpansionState) :
    Except JsError (NestedRendered × ExpansionState) :=
  let getProperties := provider.map CapabilityProvider.getProperties
  let type := match record.data with
    | none => none
    | some d => d.type
  if type = some "objects" then
    match record.data.bind RecordData.objects with
    | none => Except.error JsError.nullthrowsError
    | some objects =>
      let result := renderObjects getProperties 0 objects expansionStateId
      Except.ok (NestedRendered.multipleObjects result.1, result.2)
  else
    Except.ok
      (NestedRendered.singleObject record.data getProperties
        (getComponent type) true ExpansionRef.root,
       expansionStateId)

/-- The props consumed by the content-selection algorithm (the
`onHeightChange` callback is modelled separately by the lifecycle model
below). -/
structure RecordViewProps where
  record : Record
  showSourceLabel : Bool
  getExecutor : String → Option CapabilityProvider
  getProvider : String → Option CapabilityProvider
  expansionStateId : ExpansionState

/-- `_renderContent()`: request → raw `<pre>`; response → nested-value
rendering with the executor resolved via `getExecutor(record.sourceId)`;
non-null `record.data` → nested-value rendering with the provider resolved
via `getProvider(record.sourceId)`; otherwise the plain-text branch, which
renders through `<Ansi>` exactly when `record.format === 'ansi'` and through
`<pre>\x7bparseText(text)\x7d</pre>` otherwise. -/
def renderContent (props : RecordViewProps) :
    Except JsError (RenderedContent × ExpansionState) :=
  let record := props.record
  if record.kind = "request" then
    Except.ok (RenderedContent.preRaw (textOrSpace record.text),
      props.expansionStateId)
  else if record.kind = "response" then
    let executor := props.getExecutor record.sourceId
    (renderNestedValueComponent executor record props.expansionStateId).map
      (fun r => (RenderedContent.nested r.1, r.2))
  else if record.data.isSome then
    let provider := props.getProvider record.sourceId
    (renderNestedValueComponent provider record props.expansionStateId).map
      (fun r => (RenderedContent.nested r.1, r.2))
  else
    let text := textOrSpace record.text
    if record.format = some "ansi" then
      Except.ok (RenderedContent.ansi text, props.expansionStateId)
    else
      Except.ok (RenderedContent.preParsed text, props.expansionStateId)

/-- Whether a rendered content came from the ANSI path. -/
def RenderedContent.isAnsiPath : RenderedContent → Bool
  | RenderedContent.ansi _ => true
  | _ => false

/-- Whether a rendered content came from one of the two plain
preformatted-text (`<pre>`) paths. -/
def RenderedContent.isPrePath : RenderedContent → Bool
  | RenderedContent.preRaw _ => true
  | RenderedContent.preParsed _ => true
  | _ => false

/-- `ONE_DAY = 1000 * 60 * 60 * 24` milliseconds. -/
def ONE_DAY : Int := 1000 * 60 * 60 * 24

/-- The two timestamp label formats: `timestamp.toLocaleString()` (full
date+time) and `timestamp.toLocaleTimeString()` (time only), keeping the
formatted timestamp. -/
inductive TimestampLabel where
  | fullDateTime (timestamp : Int) : TimestampLabel
  | timeOnly (timestamp : Int) : TimestampLabel
deriving DecidableEq

/-- The timestamp rendering of `render()`: nothing when `timestamp == null`;
otherwise the full date+time format exactly when
`Date.now() - timestamp > ONE_DAY`, else the time-only format. -/
def renderTimestamp (now : Int) : Option Int → Option TimestampLabel
  | none => none
  | some timestamp =>
    some (if now - timestamp > ONE_DAY then TimestampLabel.fullDateTime timestamp
      else TimestampLabel.timeOnly timestamp)

/-- `getIconName(record)`: the `kind` switch returns on request/response; any
other kind falls through to the `level` switch, which has no default and so
yields no icon for unlisted levels. -/
def getIconName (record : Record) : Option String :=
  if record.kind = "request" then some "chevron-right"
  else if record.kind = "response" then some "arrow-small-left"
  else if record.level = some "info" then some "info"
  else if record.level = some "success" then some "check"
  else if record.level = some "warning" then some "alert"
  else if record.level = some "error" then some "stop"
  else none

/-- `getHighlightClassName(level)`: the four listed levels map to their
highlight classes, everything else to the neutral `'highlight'`. -/
def getHighlightClassName (level : Option String) : String :=
  if level = some "info" then "highlight-info"
  else if level = some "success" then "highlight-success"
  else if level = some "warning" then "highlight-warning"
  else if level = some "error" then "highlight-error"
  else "highlight"

/-- The props as compared by `shouldComponentUpdate`'s `shallowEqual`: a JS
shallow comparison checks each top-level prop with `===`, i.e. reference
identity for the record, the callbacks and the expansion-state object, and
value identity for the boolean.  References are modelled as opaque numeric
identities. -/
structure PropsRef where
  record : Nat
  showSourceLabel : Bool
  getExecutor : Nat
  getProvider : Nat
  onHeightChange : Nat
  expansionStateId : Nat
deriving DecidableEq

/-- `shallowEqual(props, nextProps)`: one-level `===` comparison of every
prop. -/
def shallowEqual (props nextProps : PropsRef) : Bool :=
  decide (props = nextProps)

/-- `shouldComponentUpdate(nextProps) = !shallowEqual(this.props, nextProps)`. -/
def shouldComponentUpdate (props nextProps : PropsRef) : Bool :=
  !shallowEqual props nextProps

/-- The observable state of a mounted `RecordView`: its current props, the
wrapper DOM element (absent until `_handleRecordWrapper` attaches it, then
carrying its `offsetHeight`), and how many times `onHeightChange` has been
invoked. -/
structure RecordViewState where
  props : PropsRef
  wrapper : Option Nat
  heightNotifications : Nat
deriving DecidableEq

/-- One invocation of `measureAndNotifyHeight` on the mounted component: a
missing wrapper returns without notifying; otherwise `onHeightChange` fires
once. -/
def measureAndNotifyHeightStep (s : RecordViewState) : RecordViewState :=
  match s.wrapper with
  | none => s
  | some _ => { s with heightNotifications := s.heightNotifications + 1 }

/-- Delivery of new props to the component, following the host framework's
update contract: the framework always records the new props; when
`shouldComponentUpdate` returns `false` it skips re-rendering and the
`componentDidUpdate` hook entirely; otherwise it re-renders and runs
`componentDidUpdate(prevProps)`, which calls `measureAndNotifyHeight()`
exactly when `this.props.record !== prevProps.record`. -/
def receiveProps (s : RecordViewState) (nextProps : PropsRef) : RecordViewState :=
  if shouldComponentUpdate s.props nextProps then
    let rendered : RecordViewState := { s with props := nextProps }
    if nextProps.record = s.props.record then rendered
    else measureAndNotifyHeightStep rendered
  else
    { s with props := nextProps }

/-- `measureAndNotifyHeight` as a pure function of the wrapper element and
the current record: `none` means `onHeightChange` is not invoked,
`some (record, height)` records the exact arguments of the invocation
(`this.props.record` and the wrapper's `offsetHeight`). -/
def measureAndNotifyHeight (wrapper : Option Nat) (record : Record) :
    Option (Record × Nat) :=
  match wrapper with
  | none => none
  | some offsetHeight => some (record, offsetHeight)

/-- Modelled from the spec: the `debounce` utility (from the sibling
`nuclide-commons` module, not part of the provided sources) wraps a callback
so that a burst of trigger signals coalesces into one deferred invocation
after a quiet delay, and exposes a `dispose()` that cancels any pending
deferred invocation and prevents every later one.  The state records whether
an invocation is pending and whether the wrapper has been disposed. -/
structure DebouncedCallback where
  pending : Bool
  disposed : Bool
deriving DecidableEq

/-- Events acting on the debounced wrapper: a trigger of the debounced
function (the `onMeasurementsChanged` signal), the expiry of the debounce
timer, and `dispose()`. -/
inductive DebounceEvent where
  | signal : DebounceEvent
  | timerFire : DebounceEvent
  | disposeEv : DebounceEvent
deriving DecidableEq

/-- Modelled from the spec: one step of the debounced wrapper; the `Bool`
result records whether the underlying callback was invoked by this step.
A timer expiry invokes the callback only when an invocation is pending and
the wrapper has not been disposed; `dispose()` cancels the pending
invocation, marks the wrapper disposed, and never invokes the callback. -/
def debounceStep (s : DebouncedCallback) :
    DebounceEvent → DebouncedCallback × Bool
  | DebounceEvent.signal =>
    if s.disposed then (s, false) else ({ s with pending := true }, false)
  | DebounceEvent.timerFire =>
    if s.pending && !s.disposed then ({ s with pending := false }, true)
    else ({ s with pending := false }, false)
  | DebounceEvent.disposeEv =>
    ({ pending := false, disposed := true }, false)

/-- `componentWillUnmount()` calls
`this._debouncedMeasureAndNotifyHeight.dispose()`. -/
def componentWillUnmount (s : DebouncedCallback) : DebouncedCallback :=
  (debounceStep s DebounceEvent.disposeEv).1

/-- Total number of callback invocations produced by a sequence of debounce
events. -/
def debounceRun (s : DebouncedCallback) : List DebounceEvent → Nat
  | [] => 0
  | e :: es =>
    let step := debounceStep s e
    (if step.2 then 1 else 0) + debounceRun step.1 es

/-! ### Decimal numeral facts

The expansion-state keys are the strings `'child' + index`.  To show that
distinct indices yield distinct keys we prove that the decimal printing of a
natural number (`Nat.repr`, the function behind `toString`) is injective, by
exhibiting the decimal evaluation of a character list as a left inverse. -/

/-- Decimal value of a digit character. -/
def charToDigit (c : Char) : Nat :=
  c.toNat - Char.toNat '0'

/-- Most-significant-digit-first decimal evaluation of a character list. -/
def digitsVal (l : List Char) : Nat :=
  l.foldl (fun a c => a * 10 + charToDigit c) 0

theorem digitsVal_foldl (l : List Char) :
    ∀ a : Nat, l.foldl (fun a c => a * 10 + charToDigit c) a
      = a * 10 ^ l.length + digitsVal l := by
  induction l with
  | nil => intro a; simp [digitsVal]
  | cons c l ih =>
    intro a
    simp only [List.foldl, digitsVal, List.length_cons]
    rw [ih (a * 10 + charToDigit c), ih (0 * 10 + charToDigit c)]
    ring

theorem digitsVal_cons (c : Char) (l : List Char) :
    digitsVal (c :: l) = charToDigit c * 10 ^ l.length + digitsVal l := by
  have h := digitsVal_foldl l (0 * 10 + charToDigit c)
  simpa [digitsVal] using h

theorem charToDigit_digitChar (d : Nat) (h : d < 10) :
    charToDigit (Nat.digitChar d) = d := by
  interval_cases d <;> decide

theorem digitsVal_toDigitsCore :
    ∀ (fuel n : Nat) (acc : List Char), n < 10 ^ fuel →
      digitsVal (Nat.toDigitsCore 10 fuel n acc)
        = n * 10 ^ acc.length + digitsVal acc := by
  intro fuel
  induction fuel with
  | zero =>
    intro n acc h
    have h1 : (10 : Nat) ^ 0 = 1 := pow_zero 10
    have hn : n = 0 := by omega
    subst hn
    simp [Nat.toDigitsCore]
  | succ fuel ih =>
    intro n acc h
    by_cases hdiv : n / 10 = 0
    · have hn : n < 10 := by omega
      have hmod : n % 10 = n := by omega
      simp only [Nat.toDigitsCore, hdiv, if_pos]
      rw [digitsVal_cons, charToDigit_digitChar _ (by omega), hmod]
    · simp only [Nat.toDigitsCore]
      rw [if_neg hdiv]
      have hlt : n / 10 < 10 ^ fuel := by
        have hp : (10 : Nat) ^ (fuel + 1) = 10 ^ fuel * 10 := pow_succ 10 fuel
        omega
      rw [ih (n / 10) (Nat.digitChar (n % 10) :: acc) hlt]
      rw [digitsVal_cons, charToDigit_digitChar _ (by omega)]
      have hqr : 10 * (n / 10) + n % 10 = n := Nat.div_add_mod n 10
      simp only [List.length_cons]
      conv_rhs => rw [← hqr]
      ring

theorem digitsVal_toDigits (n : Nat) : digitsVal (Nat.toDigits 10 n) = n := by
  have h : n < 10 ^ (n + 1) := by
    calc n < 10 ^ n := Nat.lt_pow_self (by norm_num) n
    _ ≤ 10 ^ (n + 1) := Nat.pow_le_pow_right (by norm_num) (Nat.le_succ n)
  have := digitsVal_toDigitsCore (n + 1) n [] h
  simpa [Nat.toDigits, digitsVal] using this

theorem natRepr_injective (m n : Nat) (h : Nat.repr m = Nat.repr n) : m = n := by
  have hd : Nat.toDigits 10 m = Nat.toDigits 10 n := by
    have hdata := congrArg String.data h
    simpa [Nat.repr, List.asString] using hdata
  have hv := congrArg digitsVal hd
  rwa [digitsVal_toDigits, digitsVal_toDigits] at hv

theorem childKey_injective (i j : Nat) (h : childKey i = childKey j) : i = j := by
  apply natRepr_injective
  have hdata := congrArg String.data h
  simp only [childKey, String.data_append] at hdata
  have hlist := List.append_cancel_left hdata
  show Nat.repr i = Nat.repr j
  have : (toString i).data = (toString j).data := hlist
  exact congrArg List.asString this

/-! ### Structure of the multiple-objects loop -/

/-- The child nodes produced by the multiple-objects loop; the node pushed for
an entry does not depend on the expansion-state object, so the node list can
be described without the state threading. -/
def objectNodes (getProperties : Option Nat) :
    Nat → List DataObject → List ValueNode
  | _, [] => []
  | index, object :: rest =>
    renderObjectNode getProperties index object ::
      objectNodes getProperties (index + 1) rest

theorem renderObjects_fst (getProperties : Option Nat) :
    ∀ (index : Nat) (objects : List DataObject) (st : ExpansionState),
      (renderObjects getProperties index objects st).1
        = objectNodes getProperties index objects := by
  intro index objects
  induction objects generalizing index with
  | nil => intro st; rfl
  | cons o rest ih =>
    intro st
    simp only [renderObjects, objectNodes]
    rw [ih (index + 1)]

theorem objectNodes_length (getProperties : Option Nat) :
    ∀ (index : Nat) (objects : List DataObject),
      (objectNodes getProperties index objects).length = objects.length := by
  intro index objects
  induction objects generalizing index with
  | nil => rfl
  | cons o rest ih => simp [objectNodes, ih]

theorem objectNodes_getElem (getProperties : Option Nat) :
    ∀ (objects : List DataObject) (index i : Nat),
      (objectNodes getProperties index objects).get? i
        = (objects.get? i).map (renderObjectNode getProperties (index + i)) := by
  intro objects
  induction objects with
  | nil => intro index i; simp [objectNodes]
  | cons o rest ih =>
    intro index i
    cases i with
    | zero => simp [objectNodes]
    | succ i =>
      have harith : index + 1 + i = index + (i + 1) := by omega
      have hrec := ih (index + 1) i
      rw [harith] at hrec
      simpa [objectNodes] using hrec

/-! ### Mutation discipline of the guarded slot initialisation -/

theorem initChildSlot_eq_of_truthy (st : ExpansionState) (key : String)
    (h : truthy (st key) = true) : initChildSlot st key = st := by
  unfold initChildSlot
  rw [if_pos h]

theorem initChildSlot_eq_of_falsy (st : ExpansionState) (key : String)
    (h : truthy (st key) = false) :
    initChildSlot st key
      = fun k => if k = key then some JsValue.emptyObj else st k := by
  unfold initChildSlot
  rw [if_neg (by simp [h])]

theorem initChildSlot_truthy_eq (st : ExpansionState) (key k : String)
    (h : truthy (st k) = true) : initChildSlot st key k = st k := by
  cases htr : truthy (st key) with
  | true => rw [initChildSlot_eq_of_truthy st key htr]
  | false =>
    rw [initChildSlot_eq_of_falsy st key htr]
    by_cases hk : k = key
    · subst hk
      rw [h] at htr
      exact absurd htr (by decide)
    · simp [hk]

theorem initChildSlot_self_truthy (st : ExpansionState) (key : String) :
    truthy (initChildSlot st key key) = true := by
  cases htr : truthy (st key) with
  | true => rw [initChildSlot_eq_of_truthy st key htr]; exact htr
  | false => rw [initChildSlot_eq_of_falsy st key htr]; simp [truthy]

theorem initChildSlot_changes (st : ExpansionState) (key k : String)
    (h : initChildSlot st key k ≠ st k) :
    initChildSlot st key k = some JsValue.emptyObj ∧
      truthy (st k) = false ∧ k = key := by
  cases htr : truthy (st key) with
  | true => exact absurd (by rw [initChildSlot_eq_of_truthy st key htr]) h
  | false =>
    rw [initChildSlot_eq_of_falsy st key htr] at h ⊢
    by_cases hk : k = key
    · subst hk
      exact ⟨by simp, htr, rfl⟩
    · exact absurd (by simp [hk]) h

theorem initChildSlot_none (st : ExpansionState) (key k : String)
    (h : initChildSlot st key k = none) : st k = none := by
  cases htr : truthy (st key) with
  | true => rwa [initChildSlot_eq_of_truthy st key htr] at h
  | false =>
    rw [initChildSlot_eq_of_falsy st key htr] at h
    by_cases hk : k = key
    · subst hk; simp at h
    · simpa [hk] using h

/-! ### Mutation discipline of the whole loop -/

theorem renderObjects_snd_truthy_eq (getProperties : Option Nat) :
    ∀ (objects : List DataObject) (index : Nat) (st : ExpansionState)
      (k : String), truthy (st k) = true →
      (renderObjects getProperties index objects st).2 k = st k := by
  intro objects
  induction objects with
  | nil => intro index st k h; rfl
  | cons o rest ih =>
    intro index st k h
    simp only [renderObjects]
    have h1 : initChildSlot st (childKey index) k = st k :=
      initChildSlot_truthy_eq st (childKey index) k h
    have h2 : truthy (initChildSlot st (childKey index) k) = true := by
      rw [h1]; exact h
    rw [ih (index + 1) _ k h2, h1]

theorem renderObjects_snd_truthy_mono (getProperties : Option Nat)
    (objects : List DataObject) (index : Nat) (st : ExpansionState)
    (k : String) (h : truthy (st k) = true) :
    truthy ((renderObjects getProperties index objects st).2 k) = true := by
  rw [renderObjects_snd_truthy_eq getProperties objects index st k h]
  exact h

theorem renderObjects_snd_none (getProperties : Option Nat) :
    ∀ (objects : List DataObject) (index : Nat) (st : ExpansionState)
      (k : String),
      (renderObjects getProperties index objects st).2 k = none →
      st k = none := by
  intro objects
  induction objects with
  | nil => intro index st k h; exact h
  | cons o rest ih =>
    intro index st k h
    simp only [renderObjects] at h
    exact initChildSlot_none st (childKey index) k (ih (index + 1) _ k h)

theorem renderObjects_snd_changes (getProperties : Option Nat) :
    ∀ (objects : List DataObject) (index : Nat) (st : ExpansionState)
      (k : String),
      (renderObjects getProperties index objects st).2 k ≠ st k →
      (renderObjects getProperties index objects st).2 k
          = some JsValue.emptyObj ∧
        truthy (st k) = false ∧
        ∃ i, index ≤ i ∧ i < index + objects.length ∧ k = childKey i := by
  intro objects
  induction objects with
  | nil => intro index st k h; exact absurd rfl h
  | cons o rest ih =>
    intro index st k h
    simp only [renderObjects] at h ⊢
    by_cases h1 :
        (renderObjects getProperties (index + 1) rest
          (initChildSlot st (childKey index))).2 k
        = initChildSlot st (childKey index) k
    · have h2 : initChildSlot st (childKey index) k ≠ st k := by
        intro he; exact h (by rw [h1, he])
      obtain ⟨hval, hfalsy, hkey⟩ := initChildSlot_changes st (childKey index) k h2
      refine ⟨by rw [h1, hval], hfalsy, index, le_refl index, by simp, hkey⟩
    · obtain ⟨hval, hfalsy1, i, hle, hlt, hkey⟩ := ih (index + 1) _ k h1
      have hfalsy : truthy (st k) = false := by
        cases htk : truthy (st k) with
        | false => rfl
        | true =>
          have heq := initChildSlot_truthy_eq st (childKey index) k htk
          rw [heq, htk] at hfalsy1
          exact absurd hfalsy1 (by decide)
      refine ⟨hval, hfalsy, i, by omega, ?_, hkey⟩
      simp only [List.length_cons] at hlt ⊢
      omega

theorem renderObjects_snd_childKey_truthy (getProperties : Option Nat) :
    ∀ (objects : List DataObject) (index : Nat) (st : ExpansionState)
      (i : Nat), index ≤ i → i < index + objects.length →
      truthy ((renderObjects getProperties index objects st).2 (childKey i))
        = true := by
  intro objects
  induction objects with
  | nil => intro index st i hle hlt; simp at hlt; omega
  | cons o rest ih =>
    intro index st i hle hlt
    simp only [renderObjects]
    by_cases hi : i = index
    · subst hi
      exact renderObjects_snd_truthy_mono getProperties rest (i + 1) _
        (childKey i) (initChildSlot_self_truthy st (childKey i))
    · have hle2 : index + 1 ≤ i := by omega
      have hlt2 : i < (index + 1) + rest.length := by simp at hlt; omega
      exact ih (index + 1) _ i hle2 hlt2

/-! ### Branch equations for the nested-value renderer -/

theorem renderNestedValueComponent_objects (provider : Option CapabilityProvider)
    (record : Record) (st : ExpansionState) (d : RecordData)
    (objs : List DataObject) (hd : record.data = some d)
    (ht : d.type = some "objects") (ho : d.objects = some objs) :
    renderNestedValueComponent provider record st
      = Except.ok
          (NestedRendered.multipleObjects
            (renderObjects (provider.map CapabilityProvider.getProperties)
              0 objs st).1,
           (renderObjects (provider.map CapabilityProvider.getProperties)
              0 objs st).2) := by
  simp only [renderNestedValueComponent, hd, Option.some_bind]
  rw [ht, ho]
  simp

theorem renderNestedValueComponent_not_objects
    (provider : Option CapabilityProvider) (record : Record)
    (st : ExpansionState)
    (h : (match record.data with
          | none => none
          | some d => d.type) ≠ some "objects") :
    renderNestedValueComponent provider record st
      = Except.ok
          (NestedRendered.singleObject record.data
            (provider.map CapabilityProvider.getProperties)
            (getComponent (match record.data with
              | none => none
              | some d => d.type))
            true ExpansionRef.root,
           st) := by
  simp only [renderNestedValueComponent]
  rw [if_neg h]

theorem renderNestedValueComponent_objects_missing
    (provider : Option CapabilityProvider) (record : Record)
    (st : ExpansionState) (d : RecordData) (hd : record.data = some d)
    (ht : d.type = some "objects") (ho : d.objects = none) :
    renderNestedValueComponent provider record st
      = Except.error JsError.nullthrowsError := by
  simp only [renderNestedValueComponent, hd, Option.some_bind]
  rw [ht, ho]
  simp

/-- The nested-value renderer never removes an entry of the expansion-state
object, never changes an existing truthy entry, and changes an entry only by
installing a fresh empty object over a falsy slot. -/
theorem renderNestedValueComponent_state (provider : Option CapabilityProvider)
    (record : Record) (st : ExpansionState) (r : NestedRendered)
    (stOut : ExpansionState)
    (h : renderNestedValueComponent provider record st = Except.ok (r, stOut)) :
    (∀ k, truthy (st k) = true → stOut k = st k) ∧
    (∀ k, stOut k = none → st k = none) ∧
    (∀ k, stOut k ≠ st k →
      stOut k = some JsValue.emptyObj ∧ truthy (st k) = false) := by
  simp only [renderNestedValueComponent] at h
  split at h
  · split at h
    · simp at h
    · next objs hobjs =>
      simp only [Except.ok.injEq, Prod.mk.injEq] at h
      obtain ⟨hr, hst⟩ := h
      subst hst
      refine ⟨?_, ?_, ?_⟩
      · intro k hk
        exact renderObjects_snd_truthy_eq _ objs 0 st k hk
      · intro k hk
        exact renderObjects_snd_none _ objs 0 st k hk
      · intro k hk
        obtain ⟨hval, hfalsy, _⟩ :=
          renderObjects_snd_changes _ objs 0 st k hk
        exact ⟨hval, hfalsy⟩
  · simp only [Except.ok.injEq, Prod.mk.injEq] at h
    obtain ⟨hr, hst⟩ := h
    subst hst
    exact ⟨fun k _ => rfl, fun k hk => hk, fun k hk => absurd rfl hk⟩

/-- Claim C2: for a record whose `data.type == "objects"` with N entries, the
nested-value rendering produces exactly N child nodes in sequence order; an
entry whose `expression.reference` is 0 renders as a simple value whose
evaluation result uses the expression's resolved value and a type defaulting
to `"text"` when the entry's type is null; every other entry renders as a
lazily-expandable node whose expansion-state slot is the entry of the shared
expansion-state object under the key `'child' + index`; those keys are
initialised in the shared state and are pairwise distinct for distinct
indices. -/
theorem claim2_objects_children (provider : Option CapabilityProvider)
    (record : Record) (st : ExpansionState) (d : RecordData)
    (objs : List DataObject) (hd : record.data = some d)
    (ht : d.type = some "objects") (ho : d.objects = some objs) :
    ∃ children stOut,
      renderNestedValueComponent provider record st
        = Except.ok (NestedRendered.multipleObjects children, stOut) ∧
      children.length = objs.length ∧
      (∀ i object, objs.get? i = some object →
        children.get? i
          = some (if object.expression.reference = 0 then
              ValueNode.simpleValue
                (match object.type with
                  | some t => t
                  | none => "text")
                object.expression.value
            else
              ValueNode.lazyNested
                { description := object.description
                  type := object.type.getD ""
                  objectId := object.expression }
                (provider.map CapabilityProvider.getProperties)
                (getComponent object.type) true
                (ExpansionRef.child (childKey i)))) ∧
      (∀ i, i < objs.length → truthy (stOut (childKey i)) = true) ∧
      (∀ i j, i < objs.length → j < objs.length → i ≠ j →
        childKey i ≠ childKey j) := by
  refine ⟨(renderObjects (provider.map CapabilityProvider.getProperties)
      0 objs st).1,
    (renderObjects (provider.map CapabilityProvider.getProperties)
      0 objs st).2,
    renderNestedValueComponent_objects provider record st d objs hd ht ho,
    ?_, ?_, ?_, ?_⟩
  · rw [renderObjects_fst]
    exact objectNodes_length _ 0 objs
  · intro i object hobj
    rw [renderObjects_fst, objectNodes_getElem, hobj]
    simp [renderObjectNode]
  · intro i hi
    exact renderObjects_snd_childKey_truthy _ objs 0 st i (Nat.zero_le i)
      (by omega)
  · intro i j _ _ hij hkey
    exact hij (childKey_injective i j hkey)

/-- Concrete inputs exercising the multiple-objects branch: a primitive entry
(reference 0, no declared type) followed by a lazy entry (reference 5, type
`"text"`). -/
def exampleObjects : List DataObject :=
  [ { description := some "d0", type := none,
      expression := { reference := 0, value := "42" } },
    { description := some "d1", type := some "text",
      expression := { reference := 5, value := "ignored" } } ]

/-- A structured payload of type `"objects"` over `exampleObjects`. -/
def exampleObjectsData : RecordData :=
  { type := some "objects", objects := some exampleObjects }

/-- A response record carrying `exampleObjectsData`. -/
def exampleObjectsRecord : Record :=
  { kind := "response", level := none, text := none, format := none,
    data := some exampleObjectsData, sourceId := "src", sourceName := none,
    timestamp := none, repeatCount := 1, incomplete := false }

/-- The empty expansion-state object (no keys set). -/
def emptyExpansionState : ExpansionState := fun _ => none

/-- Witness for claim C2 at the concrete inputs above. -/
theorem claim2_objects_children_witness :
    exampleObjectsRecord.data = some exampleObjectsData ∧
    exampleObjectsData.type = some "objects" ∧
    exampleObjectsData.objects = some exampleObjects ∧
    (∃ children stOut,
      renderNestedValueComponent (some { getProperties := 7 })
          exampleObjectsRecord emptyExpansionState
        = Except.ok (NestedRendered.multipleObjects children, stOut) ∧
      children.length = exampleObjects.length ∧
      (∀ i object, exampleObjects.get? i = some object →
        children.get? i
          = some (if object.expression.reference = 0 then
              ValueNode.simpleValue
                (match object.type with
                  | some t => t
                  | none => "text")
                object.expression.value
            else
              ValueNode.lazyNested
                { description := object.description
                  type := object.type.getD ""
                  objectId := object.expression }
                ((some { getProperties := 7 } :
                    Option CapabilityProvider).map
                  CapabilityProvider.getProperties)
                (getComponent object.type) true
                (ExpansionRef.child (childKey i)))) ∧
      (∀ i, i < exampleObjects.length →
        truthy (stOut (childKey i)) = true) ∧
      (∀ i j, i < exampleObjects.length → j < exampleObjects.length →
        i ≠ j → childKey i ≠ childKey j)) :=
  ⟨rfl, rfl, rfl,
    claim2_objects_children (some { getProperties := 7 })
      exampleObjectsRecord emptyExpansionState exampleObjectsData
      exampleObjects rfl rfl rfl⟩

/-- Claim C9: when `record.data` is present with `data.type == "objects"` but
the objects sequence is absent, rendering throws (the `nullthrows` call)
rather than degrading to a default; with the sequence present the rendering
succeeds, and in general the nested-value renderer is total under the
precondition that `data.type == "objects"` implies the sequence is present. -/
theorem claim9_objects_nullthrows (provider : Option CapabilityProvider)
    (record : Record) (st : ExpansionState) (d : RecordData)
    (hd : record.data = some d) (ht : d.type = some "objects") :
    (d.objects = none →
      renderNestedValueComponent provider record st
        = Except.error JsError.nullthrowsError) ∧
    (∀ objs, d.objects = some objs →
      ∃ r stOut, renderNestedValueComponent provider record st
        = Except.ok (r, stOut)) ∧
    (∀ (provider2 : Option CapabilityProvider) (record2 : Record)
        (st2 : ExpansionState),
      (∀ d2, record2.data = some d2 → d2.type = some "objects" →
        d2.objects ≠ none) →
      ∃ r stOut, renderNestedValueComponent provider2 record2 st2
        = Except.ok (r, stOut)) := by
  refine ⟨?_, ?_, ?_⟩
  · intro ho
    exact renderNestedValueComponent_objects_missing provider record st d
      hd ht ho
  · intro objs ho
    exact ⟨_, _,
      renderNestedValueComponent_objects provider record st d objs hd ht ho⟩
  · intro provider2 record2 st2 hpre
    by_cases hobj : (match record2.data with
        | none => none
        | some d2 => d2.type) = some "objects"
    · cases hdata : record2.data with
      | none => rw [hdata] at hobj; simp at hobj
      | some d2 =>
        rw [hdata] at hobj
        have ht2 : d2.type = some "objects" := hobj
        cases hmiss : d2.objects with
        | none => exact absurd hmiss (hpre d2 hdata ht2)
        | some objs2 =>
          exact ⟨_, _, renderNestedValueComponent_objects provider2 record2
            st2 d2 objs2 hdata ht2 hmiss⟩
    · exact ⟨_, _,
        renderNestedValueComponent_not_objects provider2 record2 st2 hobj⟩

/-- A structured payload claiming type `"objects"` with no objects sequence. -/
def missingObjectsData : RecordData :=
  { type := some "objects", objects := none }

/-- A record carrying `missingObjectsData`. -/
def missingObjectsRecord : Record :=
  { kind := "response", level := none, text := none, format := none,
    data := some missingObjectsData, sourceId := "src", sourceName := none,
    timestamp := none, repeatCount := 1, incomplete := false }

/-- Witness for claim C9 at the concrete inputs above: the absent sequence
makes the renderer throw. -/
theorem claim9_objects_nullthrows_witness :
    missingObjectsRecord.data = some missingObjectsData ∧
    missingObjectsData.type = some "objects" ∧
    missingObjectsData.objects = none ∧
    renderNestedValueComponent none missingObjectsRecord emptyExpansionState
      = Except.error JsError.nullthrowsError :=
  ⟨rfl, rfl, rfl,
    (claim9_objects_nullthrows none missingObjectsRecord emptyExpansionState
      missingObjectsData rfl rfl).1 rfl⟩

/-- Claim C4 (amended): on every successful render, the expansion-state
object is only extended: an entry that was truthy is left exactly as it was,
no entry is ever deleted, and the only change ever made to an entry is
installing a fresh empty object over a slot that was missing or falsy.
(The original claim's "never replaces an existing entry" holds only for
truthy entries, because the guard tests JS truthiness rather than key
presence; see the counterexample.) -/
theorem claim4_expansion_state_discipline (props : RecordViewProps)
    (content : RenderedContent) (stOut : ExpansionState)
    (h : renderContent props = Except.ok (content, stOut)) :
    (∀ k, truthy (props.expansionStateId k) = true →
      stOut k = props.expansionStateId k) ∧
    (∀ k, stOut k = none → props.expansionStateId k = none) ∧
    (∀ k, stOut k ≠ props.expansionStateId k →
      stOut k = some JsValue.emptyObj ∧
        truthy (props.expansionStateId k) = false) := by
  simp only [renderContent] at h
  split at h
  · simp only [Except.ok.injEq, Prod.mk.injEq] at h
    obtain ⟨-, hst⟩ := h
    subst hst
    exact ⟨fun k _ => rfl, fun k hk => hk, fun k hk => absurd rfl hk⟩
  · split at h
    · cases hr : renderNestedValueComponent
          (props.getExecutor props.record.sourceId) props.record
          props.expansionStateId with
      | error e => rw [hr] at h; simp [Except.map] at h
      | ok p =>
        obtain ⟨r0, st0⟩ := p
        rw [hr] at h
        simp only [Except.map, Except.ok.injEq, Prod.mk.injEq] at h
        obtain ⟨-, hst⟩ := h
        subst hst
        exact renderNestedValueComponent_state _ _ _ _ _ hr
    · split at h
      · cases hr : renderNestedValueComponent
            (props.getProvider props.record.sourceId) props.record
            props.expansionStateId with
        | error e => rw [hr] at h; simp [Except.map] at h
        | ok p =>
          obtain ⟨r0, st0⟩ := p
          rw [hr] at h
          simp only [Except.map, Except.ok.injEq, Prod.mk.injEq] at h
          obtain ⟨-, hst⟩ := h
          subst hst
          exact renderNestedValueComponent_state _ _ _ _ _ hr
      · split at h <;>
        · simp only [Except.ok.injEq, Prod.mk.injEq] at h
          obtain ⟨-, hst⟩ := h
          subst hst
          exact ⟨fun k _ => rfl, fun k hk => hk, fun k hk => absurd rfl hk⟩

/-- An expansion-state object whose `"child0"` entry exists but holds a falsy
value (as an externally owned JS object may). -/
def falsyEntryState : ExpansionState :=
  fun k => if k = "child0" then some (JsValue.other false) else none

/-- A lazy entry (nonzero reference) for the counterexample record. -/
def claim4CexObject : DataObject :=
  { description := none, type := none,
    expression := { reference := 1, value := "v" } }

/-- A structured payload with the single entry `claim4CexObject`. -/
def claim4CexData : RecordData :=
  { type := some "objects", objects := some [claim4CexObject] }

/-- Props whose record reaches the multiple-objects loop (a log record with
structured data) over `falsyEntryState`. -/
def claim4CexProps : RecordViewProps :=
  { record :=
      { kind := "log", level := none, text := none, format := none,
        data := some claim4CexData,
        sourceId := "s", sourceName := none, timestamp := none,
        repeatCount := 1, incomplete := false }
    showSourceLabel := false
    getExecutor := fun _ => none
    getProvider := fun _ => none
    expansionStateId := falsyEntryState }

/-- Counterexample to claim C4 as stated: the `"child0"` entry exists before
the render (holding a falsy value), yet the render replaces it with a fresh
empty object, because the guard `!expansionStateId[key]` tests truthiness,
not presence. -/
theorem claim4_counterexample :
    claim4CexProps.expansionStateId "child0" = some (JsValue.other false) ∧
    (renderContent claim4CexProps).map (fun r => r.2 "child0")
      = Except.ok (some JsValue.emptyObj) ∧
    some JsValue.emptyObj ≠ some (JsValue.other false) :=
  ⟨rfl, rfl, by decide⟩

/-- A plain request record over the empty expansion state. -/
def requestProps : RecordViewProps :=
  { record :=
      { kind := "request", level := none, text := none, format := none,
        data := none, sourceId := "s", sourceName := none,
        timestamp := none, repeatCount := 1, incomplete := false }
    showSourceLabel := false
    getExecutor := fun _ => none
    getProvider := fun _ => none
    expansionStateId := emptyExpansionState }

/-- Witness for claim C4 (amended) at the concrete request props. -/
theorem claim4_expansion_state_discipline_witness :
    renderContent requestProps
      = Except.ok (RenderedContent.preRaw " ",
          requestProps.expansionStateId) ∧
    ((∀ k, truthy (requestProps.expansionStateId k) = true →
      requestProps.expansionStateId k = requestProps.expansionStateId k) ∧
    (∀ k, requestProps.expansionStateId k = none →
      requestProps.expansionStateId k = none) ∧
    (∀ k, requestProps.expansionStateId k ≠ requestProps.expansionStateId k →
      requestProps.expansionStateId k = some JsValue.emptyObj ∧
        truthy (requestProps.expansionStateId k) = false)) :=
  ⟨rfl, claim4_expansion_state_discipline requestProps
    (RenderedContent.preRaw " ") requestProps.expansionStateId rfl⟩

/-- Claim C1 (amended): the ANSI rendering path is taken exactly for the
plain-text branch: a record with `format == "ansi"` whose kind is neither
`"request"` nor `"response"` and whose data is absent renders through the
ANSI renderer and never through a preformatted-text path.  (As originally
stated — ANSI path for every record with `format == "ansi"` regardless of
kind — the claim fails: see the counterexample, where a request with
`format == "ansi"` takes the plain `<pre>` path.) -/
theorem claim1_ansi_path (props : RecordViewProps)
    (hf : props.record.format = some "ansi")
    (hk1 : props.record.kind ≠ "request")
    (hk2 : props.record.kind ≠ "response")
    (hdata : props.record.data = none) :
    renderContent props
      = Except.ok (RenderedContent.ansi (textOrSpace props.record.text),
          props.expansionStateId) ∧
    (RenderedContent.ansi (textOrSpace props.record.text)).isPrePath
      = false := by
  constructor
  · simp only [renderContent]
    rw [if_neg hk1, if_neg hk2]
    simp [hdata, hf]
  · rfl

/-- Props for the counterexample to claim C1: a request record with
`format == "ansi"`. -/
def claim1CexProps : RecordViewProps :=
  { record :=
      { kind := "request", level := none, text := some "hi",
        format := some "ansi", data := none, sourceId := "s",
        sourceName := none, timestamp := none, repeatCount := 1,
        incomplete := false }
    showSourceLabel := false
    getExecutor := fun _ => none
    getProvider := fun _ => none
    expansionStateId := emptyExpansionState }

/-- Counterexample to claim C1 as stated: a record with `format == "ansi"`
and `kind == "request"` is rendered by the plain preformatted-text path, not
the ANSI path. -/
theorem claim1_counterexample :
    claim1CexProps.record.format = some "ansi" ∧
    (renderContent claim1CexProps).map (fun r => r.1.isAnsiPath)
      = Except.ok false ∧
    (renderContent claim1CexProps).map (fun r => r.1.isPrePath)
      = Except.ok true :=
  ⟨rfl, rfl, rfl⟩

/-- Props for the witness of claim C1 (amended): a plain log record with
`format == "ansi"`. -/
def claim1WitnessProps : RecordViewProps :=
  { record :=
      { kind := "log", level := none, text := some "ansi-text",
        format := some "ansi", data := none, sourceId := "s",
        sourceName := none, timestamp := none, repeatCount := 1,
        incomplete := false }
    showSourceLabel := false
    getExecutor := fun _ => none
    getProvider := fun _ => none
    expansionStateId := emptyExpansionState }

/-- Witness for claim C1 (amended) at the concrete log props. -/
theorem claim1_ansi_path_witness :
    claim1WitnessProps.record.format = some "ansi" ∧
    claim1WitnessProps.record.kind ≠ "request" ∧
    claim1WitnessProps.record.kind ≠ "response" ∧
    claim1WitnessProps.record.data = none ∧
    (renderContent claim1WitnessProps
      = Except.ok
          (RenderedContent.ansi (textOrSpace claim1WitnessProps.record.text),
           claim1WitnessProps.expansionStateId) ∧
      (RenderedContent.ansi
        (textOrSpace claim1WitnessProps.record.text)).isPrePath = false) :=
  ⟨rfl, by decide, by decide, rfl,
    claim1_ansi_path claim1WitnessProps rfl (by decide) (by decide) rfl⟩

/-- Claim C5: a record with `kind == "request"` renders as preformatted plain
text containing the record's text, with a single space substituted when the
text is empty or absent; the branch depends on nothing but the kind, so it
takes precedence over every other content-selection branch. -/
theorem claim5_request_preformatted (props : RecordViewProps)
    (hk : props.record.kind = "request") :
    renderContent props
      = Except.ok (RenderedContent.preRaw (textOrSpace props.record.text),
          props.expansionStateId) ∧
    (props.record.text = none ∨ props.record.text = some "" →
      textOrSpace props.record.text = " ") ∧
    (∀ s, props.record.text = some s → s ≠ "" →
      textOrSpace props.record.text = s) := by
  refine ⟨?_, ?_, ?_⟩
  · simp only [renderContent]
    rw [if_pos hk]
  · rintro (h | h) <;> simp [h, textOrSpace]
  · intro s hs hne
    simp [hs, textOrSpace, hne]

/-- Witness for claim C5 at the concrete request props (absent text). -/
theorem claim5_request_preformatted_witness :
    requestProps.record.kind = "request" ∧
    (renderContent requestProps
      = Except.ok (RenderedContent.preRaw (textOrSpace requestProps.record.text),
          requestProps.expansionStateId) ∧
    (requestProps.record.text = none ∨ requestProps.record.text = some "" →
      textOrSpace requestProps.record.text = " ") ∧
    (∀ s, requestProps.record.text = some s → s ≠ "" →
      textOrSpace requestProps.record.text = s)) :=
  ⟨rfl, claim5_request_preformatted requestProps rfl⟩

theorem measureAndNotifyHeightStep_props (s : RecordViewState) :
    (measureAndNotifyHeightStep s).props = s.props := by
  unfold measureAndNotifyHeightStep
  cases s.wrapper <;> rfl

theorem receiveProps_props (s : RecordViewState) (p : PropsRef) :
    (receiveProps s p).props = p := by
  unfold receiveProps
  split
  · split
    · rfl
    · rw [measureAndNotifyHeightStep_props]
  · rfl

theorem receiveProps_self (t : RecordViewState) (p : PropsRef)
    (h : t.props = p) : receiveProps t p = { t with props := p } := by
  unfold receiveProps
  rw [h]
  simp [shouldComponentUpdate, shallowEqual]

/-- Claim C3: delivering next props that are shallowly equal to the current
props causes no re-render and no lifecycle work beyond recording the props;
in particular delivering the same props twice produces no height notification
beyond whatever the first delivery produced. -/
theorem claim3_shallow_equal_no_rerender :
    (∀ (s : RecordViewState) (nextProps : PropsRef),
      shallowEqual s.props nextProps = true →
      shouldComponentUpdate s.props nextProps = false ∧
      receiveProps s nextProps = { s with props := nextProps }) ∧
    (∀ (s : RecordViewState) (p : PropsRef),
      (receiveProps (receiveProps s p) p).heightNotifications
        = (receiveProps s p).heightNotifications) := by
  constructor
  · intro s nextProps h
    have hsc : shouldComponentUpdate s.props nextProps = false := by
      simp [shouldComponentUpdate, h]
    refine ⟨hsc, ?_⟩
    unfold receiveProps
    rw [hsc]
    simp
  · intro s p
    rw [receiveProps_self (receiveProps s p) p (receiveProps_props s p)]

/-- A concrete props reference bundle. -/
def examplePropsRef : PropsRef :=
  { record := 1, showSourceLabel := false, getExecutor := 2,
    getProvider := 3, onHeightChange := 4, expansionStateId := 5 }

/-- A mounted component state holding `examplePropsRef`. -/
def exampleViewState : RecordViewState :=
  { props := examplePropsRef, wrapper := some 20, heightNotifications := 1 }

/-- Witness for claim C3: redelivering the identical props reference bundle
re-renders nothing. -/
theorem claim3_shallow_equal_no_rerender_witness :
    shallowEqual exampleViewState.props examplePropsRef = true ∧
    (shouldComponentUpdate exampleViewState.props examplePropsRef = false ∧
     receiveProps exampleViewState examplePropsRef
       = { exampleViewState with props := examplePropsRef }) :=
  ⟨by decide,
    claim3_shallow_equal_no_rerender.1 exampleViewState examplePropsRef
      (by decide)⟩

theorem debounceRun_disposed :
    ∀ (events : List DebounceEvent) (s : DebouncedCallback),
      s.disposed = true → debounceRun s events = 0 := by
  intro events
  induction events with
  | nil => intro s h; rfl
  | cons e es ih =>
    intro s h
    cases e with
    | signal =>
      have hstep : debounceStep s DebounceEvent.signal = (s, false) := by
        simp only [debounceStep]
        rw [if_pos h]
      simp [debounceRun, hstep, ih s h]
    | timerFire =>
      have hstep : debounceStep s DebounceEvent.timerFire
          = ({ s with pending := false }, false) := by
        simp only [debounceStep]
        rw [h]
        simp
      have hd : ({ s with pending := false } : DebouncedCallback).disposed
          = true := h
      simp [debounceRun, hstep, ih _ hd]
    | disposeEv =>
      have hstep : debounceStep s DebounceEvent.disposeEv
          = ({ pending := false, disposed := true }, false) := rfl
      have hrest := ih { pending := false, disposed := true } rfl
      simp [debounceRun, hstep, hrest]

/-- Claim C6: `dispose()` never invokes the callback, and after
`componentWillUnmount` has disposed the debounced wrapper, no sequence of
later events (pending-timer expiries included) ever invokes the height
callback again — even if the measurement signal fired just before unmount,
the pending invocation is cancelled. -/
theorem claim6_no_callback_after_unmount :
    (∀ s : DebouncedCallback,
      (debounceStep s DebounceEvent.disposeEv).2 = false) ∧
    (∀ (s : DebouncedCallback) (events : List DebounceEvent),
      debounceRun (componentWillUnmount s) events = 0) := by
  constructor
  · intro s; rfl
  · intro s events
    exact debounceRun_disposed events (componentWillUnmount s) rfl

/-- Claim C7: a null timestamp renders no label; otherwise the full date+time
format is used exactly when the timestamp is strictly more than 24 hours
(86,400,000 ms) in the past and the time-only format otherwise; in
particular a timestamp 24h+1ms old gets the full format and a timestamp 1ms
old gets the time-only format. -/
theorem claim7_timestamp_format (now : Int) :
    renderTimestamp now none = none ∧
    (∀ ts : Int,
      (renderTimestamp now (some ts)
          = some (TimestampLabel.fullDateTime ts) ↔ now - ts > 86400000) ∧
      (renderTimestamp now (some ts)
          = some (TimestampLabel.timeOnly ts) ↔ ¬ now - ts > 86400000)) ∧
    renderTimestamp now (some (now - 86400001))
      = some (TimestampLabel.fullDateTime (now - 86400001)) ∧
    renderTimestamp now (some (now - 1))
      = some (TimestampLabel.timeOnly (now - 1)) := by
  refine ⟨rfl, fun ts => ⟨?_, ?_⟩, ?_, ?_⟩
  · by_cases h : now - ts > 86400000
    · have heq : renderTimestamp now (some ts)
          = some (TimestampLabel.fullDateTime ts) := by
        simp only [renderTimestamp]
        rw [if_pos (show now - ts > ONE_DAY by unfold ONE_DAY; omega)]
      simp [heq, h]
    · have heq : renderTimestamp now (some ts)
          = some (TimestampLabel.timeOnly ts) := by
        simp only [renderTimestamp]
        rw [if_neg (show ¬ now - ts > ONE_DAY by unfold ONE_DAY; omega)]
      simp [heq, h]
  · by_cases h : now - ts > 86400000
    · have heq : renderTimestamp now (some ts)
          = some (TimestampLabel.fullDateTime ts) := by
        simp only [renderTimestamp]
        rw [if_pos (show now - ts > ONE_DAY by unfold ONE_DAY; omega)]
      simp [heq, h]
    · have heq : renderTimestamp now (some ts)
          = some (TimestampLabel.timeOnly ts) := by
        simp only [renderTimestamp]
        rw [if_neg (show ¬ now - ts > ONE_DAY by unfold ONE_DAY; omega)]
      simp [heq, h]
  · simp only [renderTimestamp]
    rw [if_pos (show now - (now - 86400001) > ONE_DAY by
      unfold ONE_DAY; omega)]
  · simp only [renderTimestamp]
    rw [if_neg (show ¬ now - (now - 1) > ONE_DAY by
      unfold ONE_DAY; omega)]

/-- Claim C8: the icon is selected first by kind and then by level: a request
always gets the request glyph (whatever the level), a response the response
glyph; any other kind falls through to the level, which maps
info/success/warning/error to their glyphs and anything else to no icon. -/
theorem claim8_icon_selection (record : Record) :
    (record.kind = "request" → getIconName record = some "chevron-right") ∧
    (record.kind = "response" → getIconName record = some "arrow-small-left") ∧
    (record.kind ≠ "request" → record.kind ≠ "response" →
      ((record.level = some "info" → getIconName record = some "info") ∧
       (record.level = some "success" → getIconName record = some "check") ∧
       (record.level = some "warning" → getIconName record = some "alert") ∧
       (record.level = some "error" → getIconName record = some "stop") ∧
       (record.level ≠ some "info" → record.level ≠ some "success" →
        record.level ≠ some "warning" → record.level ≠ some "error" →
        getIconName record = none))) := by
  refine ⟨?_, ?_, ?_⟩
  · intro h
    simp [getIconName, h]
  · intro h
    simp [getIconName, h]
  · intro h1 h2
    refine ⟨?_, ?_, ?_, ?_, ?_⟩
    · intro h; simp [getIconName, h1, h2, h]
    · intro h; simp [getIconName, h1, h2, h]
    · intro h; simp [getIconName, h1, h2, h]
    · intro h; simp [getIconName, h1, h2, h]
    · intro l1 l2 l3 l4
      simp [getIconName, h1, h2, l1, l2, l3, l4]

/-- A request record at error level: the kind wins over the level. -/
def requestErrorRecord : Record :=
  { kind := "request", level := some "error", text := none, format := none,
    data := none, sourceId := "s", sourceName := none, timestamp := none,
    repeatCount := 1, incomplete := false }

/-- Witness for claim C8 at the concrete request/error record. -/
theorem claim8_icon_selection_witness :
    requestErrorRecord.kind = "request" ∧
    getIconName requestErrorRecord = some "chevron-right" :=
  ⟨rfl, (claim8_icon_selection requestErrorRecord).1 rfl⟩

/-- Claim C10: `measureAndNotifyHeight` returns without invoking
`onHeightChange` when the wrapper element is not attached; whenever it does
invoke the callback, the arguments are exactly the current record and the
wrapper's measured pixel height. -/
theorem claim10_measure_guard (wrapper : Option Nat) (record : Record) :
    (wrapper = none → measureAndNotifyHeight wrapper record = none) ∧
    (∀ height, wrapper = some height →
      measureAndNotifyHeight wrapper record = some (record, height)) := by
  constructor
  · intro h
    subst h
    rfl
  · intro height h
    subst h
    rfl

/-- Witness for claim C10 at a concrete wrapper height and record. -/
theorem claim10_measure_guard_witness :
    measureAndNotifyHeight (some 42) requestErrorRecord
      = some (requestErrorRecord, 42) ∧
    measureAndNotifyHeight (none : Option Nat) requestErrorRecord = none :=
  ⟨(claim10_measure_guard (some 42) requestErrorRecord).2 42 rfl,
   (claim10_measure_guard (none : Option Nat) requestErrorRecord).1 rfl⟩
